import Mathlib

/-!
Verification of the DeadalusAPP rubric/rating audit pipeline.

The repository consists of three Python source files:
  * `rubric_validator.py`  — CLI: loads rubric records from JSON, compiles the
    rubric-audit prompt, resolves the API credential and calls the engine;
  * `ratings_validator.py` — compiles the rating-audit prompt;
  * `streamlit_app.py`     — interactive surface: bulk rubric import
    (normalization of the nested-annotation shape) and reconciliation of the
    engine reply onto the rubric records.

The development below is a shallow embedding of those functions.  Python/JSON
values are modelled by the inductive `Json` (a mutual inductive so that
equality is decidable); `json.loads` / `json.load`, file IO and the network
call are external boundaries, modelled by passing the parsed value / file
contents / engine reply as explicit arguments.  Python truthiness, `dict.get`,
`str.strip`, `str.lower` and `textwrap.dedent` are modelled explicitly
(ASCII-level, which covers every string the program manipulates).
-/

set_option maxRecDepth 100000

/-! ## JSON values (results of Python `json.loads`) -/

mutual
inductive Json where
  | null : Json
  | bool : Bool → Json
  | num : Int → Json
  | str : String → Json
  | arr : JsonList → Json
  | obj : JsonObj → Json
deriving DecidableEq, Repr

inductive JsonList where
  | nil : JsonList
  | cons : Json → JsonList → JsonList
deriving DecidableEq, Repr

inductive JsonObj where
  | nil : JsonObj
  | cons : String → Json → JsonObj → JsonObj
deriving DecidableEq, Repr
end

def JsonList.ofList : List Json → JsonList
  | [] => .nil
  | j :: rest => .cons j (JsonList.ofList rest)

def JsonList.toList : JsonList → List Json
  | .nil => []
  | .cons j rest => j :: rest.toList

def JsonObj.ofList : List (String × Json) → JsonObj
  | [] => .nil
  | (k, v) :: rest => .cons k v (JsonObj.ofList rest)

/-- Convenience constructor for array literals. -/
def jarr (l : List Json) : Json := .arr (JsonList.ofList l)

/-- Convenience constructor for object literals.  `json.loads` collapses
duplicate keys, so keys are unique and lookup order is immaterial. -/
def jobj (l : List (String × Json)) : Json := .obj (JsonObj.ofList l)

@[simp] theorem JsonList.toList_ofList (l : List Json) : (JsonList.ofList l).toList = l := by
  induction l with
  | nil => rfl
  | cons h t ih => simp [JsonList.ofList, JsonList.toList, ih]

/-- Key lookup in an object, first match (keys produced by `json.loads` are
unique). -/
def JsonObj.lookup : JsonObj → String → Option Json
  | .nil, _ => none
  | .cons k v rest, key => if k = key then some v else rest.lookup key

def JsonObj.hasKey : JsonObj → String → Bool
  | .nil, _ => false
  | .cons k _ rest, key => k == key || rest.hasKey key

def Json.get? : Json → String → Option Json
  | .obj kvs, k => kvs.lookup k
  | _, _ => none

/-- Python `d.get(k, default)`: the default applies only when the key is
absent; an explicit JSON `null` (Python `None`) is returned as stored. -/
def Json.pyGet (j : Json) (k : String) (d : Json) : Json := (j.get? k).getD d

/-- Python `d.get(k)`: absent keys give `None` (JSON `null`). -/
def Json.pyGetN (j : Json) (k : String) : Json := j.pyGet k Json.null

/-- Python `"text" in rubric`. -/
def Json.hasKey (j : Json) (k : String) : Bool :=
  match j with
  | .obj o => o.hasKey k
  | _ => false

/-- Python `isinstance(x, dict)`. -/
def Json.isObj : Json → Bool
  | .obj _ => true
  | _ => false

/-- Python `isinstance(x, list)`. -/
def Json.isArr : Json → Bool
  | .arr _ => true
  | _ => false

/-- Python truthiness of a JSON value (`bool(x)`): `None`, `False`, `0`, `""`,
`[]` and `{}` are falsy, everything else truthy. -/
def Json.truthy : Json → Bool
  | .null => false
  | .bool b => b
  | .num n => n ≠ 0
  | .str s => s ≠ ""
  | .arr .nil => false
  | .arr _ => true
  | .obj .nil => false
  | .obj _ => true

/-! ## Python string primitives (ASCII-level models) -/

/-- ASCII whitespace recognised by Python `str.strip`. -/
def pyIsSpace (c : Char) : Bool :=
  c = ' ' || c = '\t' || c = '\n' || c = '\x0d' || c = '\x0b' || c = '\x0c'

/-- Python `str.strip()`. -/
def pyStrip (s : String) : String :=
  String.mk (((s.data.dropWhile pyIsSpace).reverse.dropWhile pyIsSpace).reverse)

def pyLowerChar (c : Char) : Char :=
  if 'A' ≤ c && c ≤ 'Z' then Char.ofNat (c.toNat + 32) else c

/-- Python `str.lower()` (ASCII). -/
def pyLower (s : String) : String := String.mk (s.data.map pyLowerChar)

/-- Python `str(x)` / f-string interpolation of a JSON value.  The program
only ever formats scalars this way; container formatting is abbreviated. -/
def pyStr : Json → String
  | .null => "None"
  | .bool true => "True"
  | .bool false => "False"
  | .num n => toString n
  | .str s => s
  | .arr _ => "[...]"
  | .obj _ => "\x7b...\x7d"

/-- Python `(x or "")` applied to a value obtained from `dict.get` (absent
keys have already become `null` = `None`). -/
def pyOrEmptyStr (v : Json) : Json := if v.truthy then v else .str ""

/-- Python `.strip()` on a dynamically typed value: `AttributeError` unless it
is a `str`. -/
def pyStripAttr (v : Json) : Except String String :=
  match v with
  | .str s => .ok (pyStrip s)
  | _ => .error "AttributeError"

/-- Python `.strip().lower()` on a dynamically typed value. -/
def pyStripLowerAttr (v : Json) : Except String String :=
  match v with
  | .str s => .ok (pyLower (pyStrip s))
  | _ => .error "AttributeError"

/-- `textwrap.dedent`: whitespace-only lines are blanked, the longest common
leading-whitespace margin of the remaining lines is computed and removed. -/
def lineIsWs (l : String) : Bool :=
  l ≠ "" && l.data.all (fun c => c == ' ' || c == '\t')

def wsHead (l : String) : List Char :=
  l.data.takeWhile (fun c => c == ' ' || c == '\t')

def commonPrefix : List Char → List Char → List Char
  | a :: as, b :: bs => if a = b then a :: commonPrefix as bs else []
  | _, _ => []

def pyDedent (text : String) : String :=
  let ls := (text.splitOn "\n").map (fun l => if lineIsWs l then "" else l)
  let nonWs := ls.filter (fun l => l ≠ "")
  let margin : List Char :=
    match nonWs with
    | [] => []
    | h :: t => t.foldl (fun m l => commonPrefix m (wsHead l)) (wsHead h)
  String.intercalate "\n" (ls.map (fun l =>
    if margin.isPrefixOf l.data then String.mk (l.data.drop margin.length) else l))

/-! ## `rubric_validator.py` -/

/-- `load_rubrics`, given the value parsed by `json.load` (file IO and JSON
parsing are external boundaries).  The loop raises at the first record that is
not a `dict` containing the key `"text"`; otherwise `data` is returned
unchanged. -/
def checkRubricsFrom : Nat → List Json → Except String Unit
  | _, [] => .ok ()
  | idx, r :: rest =>
    if r.isObj && r.hasKey "text" then checkRubricsFrom (idx + 1) rest
    else .error ("Rubric at index " ++ toString idx ++
      " must be an object with at least a \x27text\x27 field.")

def load_rubrics (data : Json) : Except String (List Json) :=
  match data with
  | .arr items => (checkRubricsFrom 0 items.toList).map (fun _ => items.toList)
  | _ => .error "Rubrics file must contain a JSON array of rubric objects."

/-- One line of the rubric block of `format_user_message`:
`f"- [{rubric_id}] ({rubric_type}, {importance}) {text}"`.
`rubric.get("text", "").strip()` raises `AttributeError` when the stored text
is not a string. -/
def rubricLine (rubric : Json) : Except String String :=
  let rubricId := rubric.pyGet "id" (.str "unlabeled")
  let rubricType := rubric.pyGet "type" (.str "unspecified")
  let importance := rubric.pyGet "importance" (.str "unspecified")
  (pyStripAttr (rubric.pyGet "text" (.str ""))).map (fun text =>
    "- [" ++ pyStr rubricId ++ "] (" ++ pyStr rubricType ++ ", " ++
      pyStr importance ++ ") " ++ text)

/-- `os.linesep` on the deployment platform (Linux). -/
def os_linesep : String := "\n"

/-- `format_user_message`: the dedented, stripped f-string template with the
evidence and the rubric lines interpolated. -/
def format_user_message (repo_description pr_diff : String) (rubrics : List Json) :
    Except String String :=
  (rubrics.mapM rubricLine).map (fun rubric_lines =>
    pyStrip (pyDedent (
      "\n        Repository description:\n        " ++ repo_description ++
      "\n\n        Pull request diff or summary:\n        " ++ pr_diff ++
      "\n\n        Rubrics to validate:\n        " ++
      String.intercalate os_linesep rubric_lines ++ "\n        ")))

structure ChatMessage where
  role : String
  content : String
deriving DecidableEq, Repr

/-- The fixed rubric-audit system prompt of `rubric_validator.py`
(`dedent(...).strip()` already applied to the source literal). -/
def SYSTEM_PROMPT : String :=
  "You are a senior reviewer who scores rubric quality for evaluating PR review responses.\n\nFor each rubric, check:\n- atomic: one clear aspect of the task.\n- specific: enough context/examples to remove ambiguity; if a function is mentioned, include its file path.\n- accurate: factually correct/logically sound relative to the PR context.\n- categorized: correct rubric type and importance level.\n- grounded: explicitly tied to the PR diff or repo description.\n- self-contained: can be assessed using only the rubric text and model response (no hidden context needed).\n\nGrounding discipline:\n- Only accept file paths or functions that actually appear in the PR diff or repo description. If a rubric cites a file/function not present, mark it inaccurate and not grounded.\n- If a rubric references work that is not in the PR diff (e.g., db.py when no such file is in the diff), treat it as inaccurate and not grounded, even if it seems plausible.\n- Prefer concrete anchors (paths, functions, line mentions) found in the provided diff/context.\n- If unsure whether a cited file/function exists in the provided context, assume it does NOT and mark inaccurate/not grounded.\n\nAlso remember common rubric buckets:\n- correctness: evaluates final output functions.\n- style: assesses final output style.\n- agent-behavior: checks reasoning to find the right file/area.\n- summary: checks that the final text response summarizes code changes.\n\nAtomicity guidance:\n- Fail atomic if a rubric combines multiple distinct checks (e.g., \"adds a Java or Kotlin test\" + \"reproduces IllegalStateException\" + \"asserts sessionAttribute doesn\x27t create a new session\").\n- \"A or B\" is non-atomic when A and B are different checks, languages, files, or behaviors. Treat that as multiple acceptable paths, not one aspect.\n- Pass atomic only when the rubric is a single check with a single observable outcome; optional details should be truly equivalent ways to verify the same behavior.\n- If in doubt, mark atomic = false and suggest splitting into separate rubrics.\n\nReturn JSON with a list named \"rubric_feedback\". Each item:\n\x7b\x7b\n  \"id\": \"<rubric id>\",\n  \"verdict\": \"pass\" | \"fail\",\n  \"flags\": \x7b\x7b\n    \"atomic\": true/false,\n    \"specific\": true/false,\n    \"accurate\": true/false,\n    \"categorized\": true/false,\n    \"grounded\": true/false,\n    \"self_contained\": true/false\n  \x7d\x7d,\n  \"issues\": [\"bullet pointing the main problems\"],\n  \"suggested_fix\": \"rewrite that makes it compliant (keep empty if pass)\"\n\x7d\x7d"

/-- `build_messages`: system prompt followed by the formatted user message. -/
def build_messages (repo_description pr_diff : String) (rubrics : List Json) :
    Except String (List ChatMessage) :=
  (format_user_message repo_description pr_diff rubrics).map (fun user_message =>
    [⟨"system", SYSTEM_PROMPT⟩, ⟨"user", user_message⟩])

/-- The credential check of `call_llm`: `effective_key = api_key or
os.getenv("OPENAI_API_KEY")`, fatal iff the result is missing or empty.  The
network call itself is an external boundary whose reply is passed in as
`engine_response`.  Note the `.env` file named by `--env-file` is never read
anywhere in the program. -/
def call_llm (messages : List ChatMessage) (model : String) (show_prompt : Bool)
    (api_key : Option String) (base_url : Option String)
    (env_api_key : Option String) (engine_response : String) : Except String String :=
  let effective_key : Option String :=
    match api_key with
    | some s => if s = "" then env_api_key else some s
    | none => env_api_key
  match effective_key with
  | none => .error "OPENAI_API_KEY is not set; export it or pass --api-key to send the request."
  | some s =>
    if s = "" then
      .error "OPENAI_API_KEY is not set; export it or pass --api-key to send the request."
    else .ok engine_response

/-- Parsed command line of `rubric_validator.py`.  File-path arguments are
modelled by the contents of the named files (file IO is a boundary);
`env_file_text` is the contents of the file named by `--env-file`. -/
structure CliArgs where
  pr_diff_text : String
  repo_description_text : String
  rubrics_json : Json
  env_file_text : String
  api_key : Option String
  base_url : Option String
  model : String
  dry_run : Bool
  show_prompt : Bool
deriving Repr

inductive MainOutcome where
  | printed : String → MainOutcome
  | exitError : String → MainOutcome
deriving DecidableEq, Repr

/-- `main` of `rubric_validator.py`: read and strip the evidence files, load
the rubrics, build the messages; in dry-run mode print the prompt and stop,
otherwise call the engine.  Any raised error is printed as
`Error: ...` with exit code 1. -/
def run_main (args : CliArgs) (env_api_key env_base_url : Option String)
    (engine_response : String) : MainOutcome :=
  let repo_description := pyStrip args.repo_description_text
  let pr_diff := pyStrip args.pr_diff_text
  match load_rubrics args.rubrics_json with
  | .error e => .exitError ("Error: " ++ e)
  | .ok rubrics =>
    match build_messages repo_description pr_diff rubrics with
    | .error e => .exitError ("Error: " ++ e)
    | .ok messages =>
      if args.dry_run then
        .printed ("=== SYSTEM PROMPT ===\n" ++ (messages.getD 0 ⟨"", ""⟩).content ++
          "\n\n=== USER MESSAGE ===\n" ++ (messages.getD 1 ⟨"", ""⟩).content ++
          "\n\n(dry-run mode: no LLM call made)")
      else
        match call_llm messages args.model args.show_prompt args.api_key args.base_url
            env_api_key engine_response with
        | .error e => .exitError ("Error: " ++ e)
        | .ok content => .printed content

/-! ## `ratings_validator.py` -/

/-- Character escaping of the stdlib JSON serializer (ASCII level). -/
def jsonEscapeChar (c : Char) : String :=
  if c = '"' then "\\\"" else if c = '\\' then "\\\\"
  else if c = '\n' then "\\n" else if c = '\t' then "\\t"
  else if c = '\x0d' then "\\r" else String.mk [c]

def jsonEscape (s : String) : String := String.join (s.data.map jsonEscapeChar)

def indentSpaces (n : Nat) : String := String.mk (List.replicate n ' ')

mutual
/-- Model of the stdlib `json.dumps(value, indent=2)` (an external-library
boundary; no claim depends on the exact serialized layout). -/
def Json.dumps : Json → Nat → String
  | .null, _ => "null"
  | .bool true, _ => "true"
  | .bool false, _ => "false"
  | .num n, _ => toString n
  | .str s, _ => "\"" ++ jsonEscape s ++ "\""
  | .arr .nil, _ => "[]"
  | .arr l, ind => "[\n" ++ JsonList.dumps l (ind + 2) ++ "\n" ++ indentSpaces ind ++ "]"
  | .obj .nil, _ => "\x7b\x7d"
  | .obj o, ind => "\x7b\n" ++ JsonObj.dumps o (ind + 2) ++ "\n" ++ indentSpaces ind ++ "\x7d"

def JsonList.dumps : JsonList → Nat → String
  | .nil, _ => ""
  | .cons j .nil, ind => indentSpaces ind ++ Json.dumps j ind
  | .cons j rest, ind =>
    indentSpaces ind ++ Json.dumps j ind ++ ",\n" ++ JsonList.dumps rest ind

def JsonObj.dumps : JsonObj → Nat → String
  | .nil, _ => ""
  | .cons k v .nil, ind => indentSpaces ind ++ "\"" ++ jsonEscape k ++ "\": " ++ Json.dumps v ind
  | .cons k v rest, ind =>
    indentSpaces ind ++ "\"" ++ jsonEscape k ++ "\": " ++ Json.dumps v ind ++ ",\n" ++
      JsonObj.dumps rest ind
end

/-- The fixed rating-audit system prompt of `ratings_validator.py`
(`system_prompt.strip()` as sent by `build_ratings_messages`). -/
def ratingsSystemPrompt : String :=
  "You are an expert auditor of rubric ratings and justifications for PR review responses.\nInputs you receive:\n- PR diff/summary\n- A model response summary (what the model did)\n- Rubric ratings JSON: maps response ids -> rubric ids with title/score/color/justification\n\nFor each rating, verify:\n- Grounding: the justification cites facts present in the PR diff/summary or response summary. If it references files/behavior not in context, it is not grounded.\n- Consistency: score/title/color align with the justification (e.g., if justification describes a failure, score/title should be fail/red; if it describes success, score/title should be pass/green).\n- Clarity: justification clearly explains why the rating is correct given the rubric.\n\nAlways return feedback for every rating, even if it is OK. The verdict must be \"ok\" or \"incorrect\".\nWhen verdict is \"ok\", explain briefly why the rating is acceptable, with specific grounding anchors (file paths, functions, or diff facts) and why the justification matches the score/title/color.\nWhen verdict is \"incorrect\", explain why (grounding/consistency/clarity) and suggest a corrected rating and/or rewritten justification.\n\nFocus on grounding and consistency first; clarity is secondary. If any grounding or consistency issue exists, verdict must be \"incorrect\".\n\nReturn JSON:\n\x7b\n  \"rating_feedback\": [\n    \x7b\n      \"response_id\": \"...\",\n      \"rubric_id\": \"...\",\n      \"verdict\": \"ok\" | \"incorrect\",\n      \"issues\": [\"bullet list of problems or confirmations\"],\n      \"suggested_fix\": \"rewrite or corrected rating; keep empty string if ok\"\n    \x7d\n  ]\n\x7d"

/-- `build_ratings_messages`: the fixed system prompt plus the serialized case
payload. -/
def build_ratings_messages (summary pr_diff : String) (ratings rubric_lookup : Json) :
    List ChatMessage :=
  [⟨"system", ratingsSystemPrompt⟩,
   ⟨"user",
    "PR diff/summary:\n" ++ pr_diff ++ "\n\nResponse summary:\n" ++ summary ++
      "\n\nRubric ratings JSON:\n" ++ Json.dumps ratings 0 ++
      "\n\nRubric definitions (by id):\n" ++ Json.dumps rubric_lookup 0⟩]

/-! ## `streamlit_app.py`: bulk rubric import ("Replace rubrics with pasted JSON") -/

def importance_map : List (String × String) :=
  [("must follow", "must-follow"), ("good to have", "good-to-have"),
   ("universal", "universal")]

def type_options : List String :=
  ["correctness", "code style", "summary", "agent behavior", "other"]

/-- Lines 183–184 of `streamlit_app.py`:
`importance_raw = (annotations.get("importance") or "").strip().lower()` and
`importance = importance_map.get(importance_raw, importance_raw or "must-follow")`. -/
def importanceOf (v : Json) : Except String String :=
  (pyStripLowerAttr (pyOrEmptyStr v)).map (fun raw =>
    match importance_map.lookup raw with
    | some mapped => mapped
    | none => if raw = "" then "must-follow" else raw)

/-- Lines 185–186: `annotations.get("type")`, stripped and lowered, accepted
only when in the closed type list. -/
def rubricTypeOf (v : Json) : Except String String :=
  (pyStripLowerAttr (pyOrEmptyStr v)).map (fun raw =>
    if type_options.contains raw then raw else "correctness")

/-- Lines 187–191: `annotations.get("is_positive")`; strings compare
case-insensitively to "true", `None` defaults to `True`, anything else is
coerced with `bool(...)`. -/
def positiveOf (v : Json) : Bool :=
  match v with
  | .str s => pyLower (pyStrip s) == "true"
  | .null => true
  | w => w.truthy

/-- One iteration of the import loop (lines 178–201).  `.ok none` models
`continue` for records that are not dicts; `.error` models an exception
escaping to the surrounding `except` block. -/
def normalizeItem (idx : Nat) (item : Json) : Except String (Option Json) :=
  if !item.isObj then .ok none
  else
    let anns0 := item.pyGet "annotations" (jobj [])
    let anns := if anns0.isObj then anns0 else jobj []
    (pyStripAttr (pyOrEmptyStr (item.pyGetN "title"))).bind (fun title =>
    (importanceOf (anns.pyGetN "importance")).bind (fun importance =>
    (rubricTypeOf (anns.pyGetN "type")).map (fun rubricType =>
      let positive := positiveOf (anns.pyGetN "is_positive")
      some (jobj
        [("id", item.pyGet "id" (.str ("R" ++ toString (idx + 1)))),
         ("type", .str rubricType),
         ("importance", .str importance),
         ("positive", .bool positive),
         ("text", .str title)]))))

/-- The whole `for idx, item in enumerate(raw_items)` loop, collecting the
`mapped` list. -/
def normalizeItems : Nat → List Json → Except String (List Json)
  | _, [] => .ok []
  | idx, item :: rest =>
    (normalizeItem idx item).bind (fun r =>
      (normalizeItems (idx + 1) rest).map (fun rs =>
        match r with
        | none => rs
        | some j => j :: rs))

/-- The "Replace rubrics with pasted JSON" handler (lines 166–210), given the
value parsed by `json.loads` (parsing is a boundary; a parse failure never
reaches this code).  Raises `ValueError("JSON must be an array.")` for a
non-array and `ValueError("No valid rubric objects found.")` when `mapped`
ends up empty. -/
def replace_rubrics_with_json (parsed : Json) : Except String (List Json) :=
  match parsed with
  | .arr items =>
    (normalizeItems 0 items.toList).bind (fun mapped =>
      if mapped = [] then .error "No valid rubric objects found."
      else .ok mapped)
  | _ => .error "JSON must be an array."

/-! ## `streamlit_app.py`: reconciliation of the engine reply (`handle`, lines 228–290) -/

/-- Everything `handle` renders for one feedback item (lines 259–284). -/
structure RenderedBlock where
  header : String
  rubricId : Json
  typeShown : Json
  importanceShown : Json
  positiveShown : Json
  textShown : Json
  verdict : Option Json
  verdictColor : Option String
  issues : Option Json
  suggestedFix : Option Json
deriving DecidableEq, Repr

/-- Line 230: `rubric_lookup = {r.get("id"): r for r in rubrics if
isinstance(r, dict) and r.get("id")}`, queried with `.get`.  Later duplicates
override earlier ones, hence the reversed search. -/
def rubric_lookup_get (rubrics : List Json) (key : Json) : Option Json :=
  ((rubrics.filter (fun r => r.isObj && (r.pyGetN "id").truthy)).reverse).find?
    (fun r => r.pyGetN "id" == key)

/-- One iteration of `for idx, item in enumerate(feedback)` (lines 259–284). -/
def renderOne (rubrics : List Json) (idx : Nat) (item : Json) : RenderedBlock :=
  let rubricId := if item.isObj then item.pyGet "id" (.str "") else .str ""
  let fallback := rubrics.getD idx (jobj [])
  let original :=
    match rubric_lookup_get rubrics rubricId with
    | some r => if r.truthy then r else fallback
    | none => fallback
  let itemType := if item.isObj then item.pyGetN "type" else Json.null
  let itemImportance := if item.isObj then item.pyGetN "importance" else Json.null
  let itemPositive := if item.isObj then item.pyGetN "positive" else Json.null
  let itemText := if item.isObj then item.pyGetN "text" else Json.null
  let verdictVal := item.pyGet "verdict" (.str "")
  ⟨"Rubric " ++ toString (idx + 1) ++ ": " ++ pyStr rubricId,
   rubricId,
   (if itemType.truthy then itemType else original.pyGet "type" (.str "n/a")),
   (if itemImportance.truthy then itemImportance else original.pyGet "importance" (.str "n/a")),
   (if itemPositive ≠ Json.null then itemPositive else original.pyGet "positive" (.str "n/a")),
   (if itemText.truthy then itemText else original.pyGet "text" (.str "n/a")),
   (if item.isObj then some verdictVal else none),
   (if item.isObj then some (if pyLower (pyStr verdictVal) == "pass" then "green" else "red")
    else none),
   (if item.isObj then some (item.pyGet "issues" (jarr [])) else none),
   (if item.isObj then some (item.pyGet "suggested_fix" (.str "")) else none)⟩

def renderItems (rubrics : List Json) (items : List Json) : List RenderedBlock :=
  items.enum.map (fun p => renderOne rubrics p.1 p.2)

/-- What the non-dry path of `handle` shows after the engine reply arrives:
either the per-item structured rendering, or the parsed/raw value dumped to
`result_placeholder`. -/
inductive ReconcileOutput where
  | blocks : List RenderedBlock → ReconcileOutput
  | passthrough : Json → ReconcileOutput
deriving DecidableEq, Repr

def ReconcileOutput.blockList : ReconcileOutput → List RenderedBlock
  | .blocks l => l
  | .passthrough _ => []

/-- Lines 251–286 of `handle`: `parsed? = none` models a
`json.JSONDecodeError` from `json.loads(content)` (in which case `parsed =
{"raw": content}`); the structured rendering runs only when
`parsed.get("rubric_feedback")` is a truthy (non-empty) list, otherwise the
parsed value is passed through to `result_placeholder.json`. -/
def handle_reconcile (rubrics : List Json) (content : String) (parsed? : Option Json) :
    ReconcileOutput :=
  let parsed : Json :=
    match parsed? with
    | none => jobj [("raw", .str content)]
    | some p => p
  let feedback : Json := if parsed.isObj then parsed.pyGetN "rubric_feedback" else Json.null
  match feedback with
  | .arr .nil => .passthrough parsed
  | .arr items => .blocks (renderItems rubrics items.toList)
  | _ => .passthrough parsed

/-- Whether `feedback and isinstance(feedback, list)` holds for a parsed
reply, i.e. the reply carries a usable (non-empty list) `rubric_feedback`. -/
def hasUsableFeedback (p : Json) : Bool :=
  match (if p.isObj then p.pyGetN "rubric_feedback" else Json.null) with
  | .arr .nil => false
  | .arr _ => true
  | _ => false

/-! ## Claim C6 and C7: literal policy text in the compiled prompts -/

def groundingDiscipline : String :=
  "Grounding discipline:\n- Only accept file paths or functions that actually appear in the PR diff or repo description. If a rubric cites a file/function not present, mark it inaccurate and not grounded.\n- If a rubric references work that is not in the PR diff (e.g., db.py when no such file is in the diff), treat it as inaccurate and not grounded, even if it seems plausible.\n- Prefer concrete anchors (paths, functions, line mentions) found in the provided diff/context.\n- If unsure whether a cited file/function exists in the provided context, assume it does NOT and mark inaccurate/not grounded."

def sysPromptPre : String :=
  "You are a senior reviewer who scores rubric quality for evaluating PR review responses.\n\nFor each rubric, check:\n- atomic: one clear aspect of the task.\n- specific: enough context/examples to remove ambiguity; if a function is mentioned, include its file path.\n- accurate: factually correct/logically sound relative to the PR context.\n- categorized: correct rubric type and importance level.\n- grounded: explicitly tied to the PR diff or repo description.\n- self-contained: can be assessed using only the rubric text and model response (no hidden context needed).\n\n"

def sysPromptPost : String :=
  "\n\nAlso remember common rubric buckets:\n- correctness: evaluates final output functions.\n- style: assesses final output style.\n- agent-behavior: checks reasoning to find the right file/area.\n- summary: checks that the final text response summarizes code changes.\n\nAtomicity guidance:\n- Fail atomic if a rubric combines multiple distinct checks (e.g., \"adds a Java or Kotlin test\" + \"reproduces IllegalStateException\" + \"asserts sessionAttribute doesn\x27t create a new session\").\n- \"A or B\" is non-atomic when A and B are different checks, languages, files, or behaviors. Treat that as multiple acceptable paths, not one aspect.\n- Pass atomic only when the rubric is a single check with a single observable outcome; optional details should be truly equivalent ways to verify the same behavior.\n- If in doubt, mark atomic = false and suggest splitting into separate rubrics.\n\nReturn JSON with a list named \"rubric_feedback\". Each item:\n\x7b\x7b\n  \"id\": \"<rubric id>\",\n  \"verdict\": \"pass\" | \"fail\",\n  \"flags\": \x7b\x7b\n    \"atomic\": true/false,\n    \"specific\": true/false,\n    \"accurate\": true/false,\n    \"categorized\": true/false,\n    \"grounded\": true/false,\n    \"self_contained\": true/false\n  \x7d\x7d,\n  \"issues\": [\"bullet pointing the main problems\"],\n  \"suggested_fix\": \"rewrite that makes it compliant (keep empty if pass)\"\n\x7d\x7d"

def ratingsPriorityRule : String :=
  "Focus on grounding and consistency first; clarity is secondary. If any grounding or consistency issue exists, verdict must be \"incorrect\"."

def ratingsPromptPre : String :=
  "You are an expert auditor of rubric ratings and justifications for PR review responses.\nInputs you receive:\n- PR diff/summary\n- A model response summary (what the model did)\n- Rubric ratings JSON: maps response ids -> rubric ids with title/score/color/justification\n\nFor each rating, verify:\n- Grounding: the justification cites facts present in the PR diff/summary or response summary. If it references files/behavior not in context, it is not grounded.\n- Consistency: score/title/color align with the justification (e.g., if justification describes a failure, score/title should be fail/red; if it describes success, score/title should be pass/green).\n- Clarity: justification clearly explains why the rating is correct given the rubric.\n\nAlways return feedback for every rating, even if it is OK. The verdict must be \"ok\" or \"incorrect\".\nWhen verdict is \"ok\", explain briefly why the rating is acceptable, with specific grounding anchors (file paths, functions, or diff facts) and why the justification matches the score/title/color.\nWhen verdict is \"incorrect\", explain why (grounding/consistency/clarity) and suggest a corrected rating and/or rewritten justification.\n\n"

def ratingsPromptPost : String :=
  "\n\nReturn JSON:\n\x7b\n  \"rating_feedback\": [\n    \x7b\n      \"response_id\": \"...\",\n      \"rubric_id\": \"...\",\n      \"verdict\": \"ok\" | \"incorrect\",\n      \"issues\": [\"bullet list of problems or confirmations\"],\n      \"suggested_fix\": \"rewrite or corrected rating; keep empty string if ok\"\n    \x7d\n  ]\n\x7d"

/-- Claim C6: for every input, the system message compiled for the
rating-audit variant contains, as literal text, the priority rule that any
grounding or consistency issue forces verdict "incorrect" and that clarity is
secondary. -/
theorem ratings_prompt_contains_priority_rule
    (summary pr_diff : String) (ratings rubric_lookup : Json) :
    (build_ratings_messages summary pr_diff ratings rubric_lookup).head? =
      some ⟨"system", ratingsSystemPrompt⟩ ∧
    ∃ a b, ratingsSystemPrompt = a ++ ratingsPriorityRule ++ b :=
  ⟨rfl, ratingsPromptPre, ratingsPromptPost, rfl⟩

/-- Claim C7: for every input, the system message compiled for the
rubric-audit variant contains, as literal text, the closed-world grounding
directive (absent or unsure citations default to inaccurate / not grounded,
never to plausible). -/
theorem rubric_prompt_contains_grounding_directive
    (repo_description pr_diff : String) (rubrics : List Json) :
    (∀ msgs, build_messages repo_description pr_diff rubrics = .ok msgs →
      msgs.head? = some ⟨"system", SYSTEM_PROMPT⟩) ∧
    ∃ a b, SYSTEM_PROMPT = a ++ groundingDiscipline ++ b := by
  constructor
  · intro msgs h
    unfold build_messages at h
    cases hf : format_user_message repo_description pr_diff rubrics with
    | error e => rw [hf] at h; exact absurd h (by simp [Except.map])
    | ok u => rw [hf] at h; simp [Except.map] at h; rw [← h]; rfl
  · exact ⟨sysPromptPre, sysPromptPost, rfl⟩

/-- Witness for C7 at a concrete input: compiling with empty evidence and no
rubrics succeeds and the first message is the fixed system prompt. -/
theorem rubric_prompt_contains_grounding_directive_witness :
    ∃ msgs, build_messages "" "" [] = .ok msgs ∧
      msgs.head? = some ⟨"system", SYSTEM_PROMPT⟩ :=
  ⟨_, rfl, (rubric_prompt_contains_grounding_directive "" "" []).1 _ rfl⟩

/-! ## Claims C8 and C10: `load_rubrics` -/

theorem checkRubricsFrom_ok_iff (items : List Json) :
    ∀ n, checkRubricsFrom n items = .ok () ↔
      ∀ r ∈ items, (r.isObj && r.hasKey "text") = true := by
  induction items with
  | nil => intro n; simp [checkRubricsFrom]
  | cons h t ih =>
    intro n
    cases hh : h.isObj && h.hasKey "text" with
    | true =>
      rw [checkRubricsFrom, if_pos hh, ih (n + 1)]
      constructor
      · intro ht r hr
        rcases List.mem_cons.mp hr with rfl | hr2
        · exact hh
        · exact ht r hr2
      · intro hall r hr
        exact hall r (List.mem_cons_of_mem h hr)
    | false =>
      rw [checkRubricsFrom, if_neg (by simp [hh])]
      constructor
      · intro hcontra
        exact absurd hcontra (by simp)
      · intro hall
        exact absurd (hall h (List.mem_cons_self h t)) (by simp [hh])

/-- Claim C8: `load_rubrics` fails exactly when the parsed value is not an
array or some element is not an object containing the key `"text"`; when every
element is such an object it succeeds and returns all records unchanged. -/
theorem load_rubrics_ok_characterization (data : Json) :
    ((∃ l, load_rubrics data = .ok l) ↔
      ∃ items, data = Json.arr items ∧
        ∀ r ∈ items.toList, (r.isObj && r.hasKey "text") = true) ∧
    (∀ items, data = Json.arr items →
      (∀ r ∈ items.toList, (r.isObj && r.hasKey "text") = true) →
      load_rubrics data = .ok items.toList) := by
  have hok : ∀ items : JsonList,
      (∀ r ∈ items.toList, (r.isObj && r.hasKey "text") = true) →
      load_rubrics (Json.arr items) = .ok items.toList := by
    intro items hwf
    show Except.map _ (checkRubricsFrom 0 items.toList) = _
    rw [(checkRubricsFrom_ok_iff items.toList 0).mpr hwf]
    rfl
  constructor
  · constructor
    · rintro ⟨l, hl⟩
      cases data with
      | arr items =>
        refine ⟨items, rfl, ?_⟩
        rw [← checkRubricsFrom_ok_iff items.toList 0]
        have hl2 : Except.map (fun _ => items.toList) (checkRubricsFrom 0 items.toList) =
            .ok l := hl
        cases hc : checkRubricsFrom 0 items.toList with
        | error e => rw [hc] at hl2; exact absurd hl2 (by simp [Except.map])
        | ok u => rfl
      | null => exact absurd hl (by simp [load_rubrics])
      | bool b => exact absurd hl (by simp [load_rubrics])
      | num n => exact absurd hl (by simp [load_rubrics])
      | str s => exact absurd hl (by simp [load_rubrics])
      | obj o => exact absurd hl (by simp [load_rubrics])
    · rintro ⟨items, rfl, hwf⟩
      exact ⟨items.toList, hok items hwf⟩
  · rintro items rfl hwf
    exact hok items hwf
/-- Witness for C8: a one-element array whose element is an object with a
`text` field loads successfully and is returned unchanged. -/
theorem load_rubrics_ok_characterization_witness :
    load_rubrics (Json.arr (.cons (.obj (.cons "text" (.str "x") .nil)) .nil)) =
      .ok [Json.obj (.cons "text" (.str "x") .nil)] :=
  (load_rubrics_ok_characterization
      (Json.arr (.cons (.obj (.cons "text" (.str "x") .nil)) .nil))).2
    (.cons (.obj (.cons "text" (.str "x") .nil)) .nil) rfl (by decide)

/-- Claim C10: `load_rubrics` checks only the presence of the `text` key, not
its value — any array of objects carrying the key loads successfully and is
returned unchanged (so empty-text rubrics reach prompt compilation, which
still succeeds when every stored text is a string). -/
theorem load_rubrics_checks_presence_only :
    (∀ items : List Json, (∀ r ∈ items, r.isObj = true ∧ r.hasKey "text" = true) →
      load_rubrics (Json.arr (JsonList.ofList items)) = .ok items) ∧
    (∀ repo_description pr_diff : String, ∃ msgs,
      build_messages repo_description pr_diff [jobj [("text", Json.str "")]] = .ok msgs) := by
  constructor
  · intro items hwf
    show Except.map _ (checkRubricsFrom 0 (JsonList.ofList items).toList) = _
    rw [JsonList.toList_ofList,
      (checkRubricsFrom_ok_iff items 0).mpr (fun r hr => by simp [(hwf r hr).1, (hwf r hr).2])]
    rfl
  · intro repo_description pr_diff
    exact ⟨_, rfl⟩

/-- Witness for C10: rubrics whose `text` is the empty string or even a
non-string value pass the load check and come back unchanged. -/
theorem load_rubrics_checks_presence_only_witness :
    load_rubrics (Json.arr (JsonList.ofList
        [jobj [("text", Json.str "")], jobj [("text", Json.num 5), ("id", Json.str "R2")]])) =
      .ok [jobj [("text", Json.str "")], jobj [("text", Json.num 5), ("id", Json.str "R2")]] :=
  load_rubrics_checks_presence_only.1
    [jobj [("text", Json.str "")], jobj [("text", Json.num 5), ("id", Json.str "R2")]]
    (by decide)

/-! ## Claim C9: credential resolution -/

/-- Claim C9 (code bug): the credential is resolved from the explicit
`--api-key` override and the process environment only; the file named by
`--env-file` is parsed as an argument but never read, so for any contents of
that file (including one that supplies `OPENAI_API_KEY`) a run with no other
credential fails at the boundary call with the fatal credential error — while
a dry run on the very same inputs succeeds without any credential, confirming
that the check happens only when the call is attempted. -/
theorem env_file_never_consulted (env_file_text engine_response : String) :
    run_main
        ⟨"diff", "repo", Json.arr (.cons (.obj (.cons "text" (.str "t") .nil)) .nil),
         env_file_text, none, none, "gpt-4o-mini", false, false⟩
        none none engine_response =
      .exitError
        "Error: OPENAI_API_KEY is not set; export it or pass --api-key to send the request." ∧
    ∃ s, run_main
        ⟨"diff", "repo", Json.arr (.cons (.obj (.cons "text" (.str "t") .nil)) .nil),
         env_file_text, none, none, "gpt-4o-mini", true, false⟩
        none none engine_response = .printed s :=
  ⟨rfl, _, rfl⟩

/-! ## Claim C3: importance fallback in the nested-annotation import -/

theorem pyOrEmptyStr_str (s : String) : pyOrEmptyStr (Json.str s) = Json.str s := by
  by_cases h : s = ""
  · simp [pyOrEmptyStr, Json.truthy, h]
  · simp [pyOrEmptyStr, Json.truthy, h]

/-- A nested-annotation import record with a `title` and, optionally, an
`annotations.importance` value. -/
def importItem (title : String) (imp? : Option Json) : Json :=
  .obj (.cons "title" (.str title)
    (.cons "annotations"
      (.obj (match imp? with
             | none => .nil
             | some v => .cons "importance" v .nil)) .nil))

/-- The `importance` field of the record produced by one import-loop
iteration, when the iteration succeeds and keeps the record. -/
def normalizedImportance (item : Json) : Option Json :=
  match normalizeItem 0 item with
  | .ok (some r) => r.get? "importance"
  | _ => none

/-- Counterexample to claim C3: the unrecognized non-empty importance string
"critical" is passed through (lower-cased and trimmed) instead of falling
back to the canonical must-follow. -/
theorem importance_fallback_counterexample :
    normalizedImportance (importItem "t" (some (Json.str "critical"))) =
      some (Json.str "critical") ∧
    Json.str "critical" ≠ Json.str "must-follow" := by
  constructor
  · rfl
  · decide

/-- Normalization of a nested-annotation record with a title and an
`annotations.importance` value: the record one loop iteration produces, as a
function of the importance computation. -/
theorem normalizeItem_importItem (n : Nat) (title : String) (v : Json) :
    normalizeItem n (importItem title (some v)) =
      (importanceOf v).map (fun importance =>
        some (jobj
          [("id", Json.str ("R" ++ toString (n + 1))),
           ("type", Json.str "correctness"),
           ("importance", Json.str importance),
           ("positive", Json.bool true),
           ("text", Json.str (pyStrip title))])) := by
  have htitle : pyStripAttr (pyOrEmptyStr (Json.str title)) = .ok (pyStrip title) := by
    rw [pyOrEmptyStr_str]; rfl
  unfold normalizeItem importItem
  simp only [Json.isObj, Bool.not_true, Bool.false_eq_true, if_false, ite_true, ite_false]
  rw [show (Json.obj (.cons "title" (.str title)
      (.cons "annotations" (.obj (.cons "importance" v .nil)) .nil))).pyGetN "title" =
    Json.str title from rfl]
  rw [show (Json.obj (.cons "title" (.str title)
      (.cons "annotations" (.obj (.cons "importance" v .nil)) .nil))).pyGet
      "annotations" (jobj []) = Json.obj (.cons "importance" v .nil) from rfl]
  rw [htitle]
  simp only [Json.isObj, ite_true, if_true]
  rw [show (Json.obj (.cons "importance" v .nil)).pyGetN "importance" = v from rfl]
  rw [show (Json.obj (.cons "importance" v .nil)).pyGetN "type" = Json.null from rfl]
  rw [show (Json.obj (.cons "importance" v .nil)).pyGetN "is_positive" = Json.null from rfl]
  rw [show (Json.obj (.cons "title" (.str title)
      (.cons "annotations" (.obj (.cons "importance" v .nil)) .nil))).pyGet
      "id" (Json.str ("R" ++ toString (n + 1))) = Json.str ("R" ++ toString (n + 1)) from rfl]
  cases hv : importanceOf v with
  | error e => rfl
  | ok imp => rfl

/-- Claim C3 as amended: an `annotations.importance` string outside the fixed
table is kept as its trimmed, lower-cased form; only an absent or
(after trimming) empty value falls back to must-follow. -/
theorem importance_fallback_amended (title s : String) :
    (importance_map.lookup (pyLower (pyStrip s)) = none →
      pyLower (pyStrip s) ≠ "" →
      normalizedImportance (importItem title (some (Json.str s))) =
        some (Json.str (pyLower (pyStrip s)))) ∧
    normalizedImportance (importItem title none) = some (Json.str "must-follow") := by
  have himp : ∀ v imp, importanceOf v = .ok imp →
      normalizedImportance (importItem title (some v)) = some (Json.str imp) := by
    intro v imp hv
    unfold normalizedImportance
    rw [normalizeItem_importItem 0 title v, hv]
    rfl
  constructor
  · intro hmiss hne
    apply himp
    unfold importanceOf
    rw [pyOrEmptyStr_str s]
    simp only [pyStripLowerAttr, Except.map, hmiss, if_neg hne]
  · apply himp
    rfl
/-- Witness for the amended claim C3 at the concrete unrecognized value
"Critical" (trimmed/lower-cased to "critical"). -/
theorem importance_fallback_amended_witness :
    importance_map.lookup (pyLower (pyStrip "Critical")) = none ∧
    pyLower (pyStrip "Critical") ≠ "" ∧
    normalizedImportance (importItem "t" (some (Json.str "Critical"))) =
      some (Json.str (pyLower (pyStrip "Critical"))) :=
  ⟨rfl, by decide, (importance_fallback_amended "t" "Critical").1 rfl (by decide)⟩

/-! ## Claim C4: empty input vs zero usable records -/

/-- Counterexample to claim C4: normalizing the empty input array is NOT an
error-free empty rubric set — it raises the same "No valid rubric objects
found." error as a non-empty input with zero usable records. -/
theorem empty_input_counterexample :
    replace_rubrics_with_json (Json.arr .nil) = .error "No valid rubric objects found." ∧
    replace_rubrics_with_json (Json.arr .nil) ≠ .ok [] :=
  ⟨rfl, fun hcontra => by
    rw [show replace_rubrics_with_json (Json.arr .nil) =
      .error "No valid rubric objects found." from rfl] at hcontra
    exact Except.noConfusion hcontra⟩

/-- Claim C4 as amended: the "No valid rubric objects found." error is raised
exactly when the import loop maps zero records — for the empty input just as
for a non-empty input whose records are all skipped; no input yields an empty
rubric set. -/
theorem empty_result_error_amended (items : List Json) (mapped : List Json)
    (h : normalizeItems 0 items = .ok mapped) :
    (replace_rubrics_with_json (Json.arr (JsonList.ofList items)) =
        .error "No valid rubric objects found.") ↔ mapped = [] := by
  show ((normalizeItems 0 (JsonList.ofList items).toList).bind _ = _) ↔ _
  rw [JsonList.toList_ofList, h]
  cases mapped with
  | nil => simp [Except.bind]
  | cons a t => simp [Except.bind]

/-- Witness for the amended claim C4: a non-empty input consisting of one
non-dict record maps to zero records and raises the error. -/
theorem empty_result_error_amended_witness :
    normalizeItems 0 [Json.num 1] = .ok [] ∧
    replace_rubrics_with_json (Json.arr (JsonList.ofList [Json.num 1])) =
      .error "No valid rubric objects found." :=
  ⟨rfl, (empty_result_error_amended [Json.num 1] [] rfl).mpr rfl⟩

/-! ## Claim C5: normalization is not idempotent -/

/-- A rubric record already in canonical form (the shape the import loop
produces and the editing surface maintains). -/
def canonicalRubric (idv : Json) (ty imp : String) (pos : Bool) (txt : String) : Json :=
  jobj [("id", idv), ("type", .str ty), ("importance", .str imp),
        ("positive", .bool pos), ("text", .str txt)]

/-- What re-running the import normalizer actually produces from a canonical
record: only the id survives, everything else resets to the defaults. -/
def renormalizedRubric (idv : Json) : Json :=
  jobj [("id", idv), ("type", .str "correctness"), ("importance", .str "must-follow"),
        ("positive", .bool true), ("text", .str "")]

theorem normalizeItem_canonical (n : Nat) (idv : Json) (ty imp : String) (pos : Bool)
    (txt : String) :
    normalizeItem n (canonicalRubric idv ty imp pos txt) =
      .ok (some (renormalizedRubric idv)) := rfl

theorem normalizeItems_canonical (l : List (Json × String × String × Bool × String)) :
    ∀ n, normalizeItems n
        (l.map (fun q => canonicalRubric q.1 q.2.1 q.2.2.1 q.2.2.2.1 q.2.2.2.2)) =
      .ok (l.map (fun q => renormalizedRubric q.1)) := by
  induction l with
  | nil => intro n; rfl
  | cons q t ih =>
    intro n
    simp only [List.map_cons]
    show (normalizeItem n (canonicalRubric q.1 q.2.1 q.2.2.1 q.2.2.2.1 q.2.2.2.2)).bind _ = _
    rw [normalizeItem_canonical, ih (n + 1)]
    rfl

/-- Counterexample to claim C5: normalizing a one-record canonical rubric set
changes it — the output record's `text` is cleared (and type/importance/
positive reset), so the output does not equal the input even under
field-order-insensitive comparison. -/
theorem normalization_idempotence_counterexample :
    replace_rubrics_with_json
        (jarr [canonicalRubric (Json.str "R1") "summary" "universal" false "hello"]) =
      .ok [renormalizedRubric (Json.str "R1")] ∧
    (renormalizedRubric (Json.str "R1")).get? "text" = some (Json.str "") ∧
    (canonicalRubric (Json.str "R1") "summary" "universal" false "hello").get? "text" =
      some (Json.str "hello") ∧
    Json.str "" ≠ Json.str "hello" :=
  ⟨rfl, rfl, rfl, by decide⟩

/-- Claim C5 as amended: re-normalizing an already-canonical rubric set is
not a no-op — the normalizer reads only `title` and `annotations`, so each
record keeps only its `id` while `type`, `importance`, `positive` reset to
the defaults and `text` is cleared; the set is unchanged only when every
record already holds exactly those defaults. -/
theorem normalization_not_idempotent
    (l : List (Json × String × String × Bool × String)) (h : l ≠ []) :
    replace_rubrics_with_json
        (jarr (l.map (fun q => canonicalRubric q.1 q.2.1 q.2.2.1 q.2.2.2.1 q.2.2.2.2))) =
      .ok (l.map (fun q => renormalizedRubric q.1)) := by
  show (normalizeItems 0 (JsonList.ofList _).toList).bind _ = _
  rw [JsonList.toList_ofList, normalizeItems_canonical l 0]
  have hne : l.map (fun q => renormalizedRubric q.1) ≠ [] := by
    cases l with
    | nil => exact absurd rfl h
    | cons a t => simp
  simp [Except.bind, hne]

/-- Witness for the amended claim C5 at a concrete canonical record. -/
theorem normalization_not_idempotent_witness :
    ([((Json.str "R1" : Json), "summary", "universal", false, "hello")] ≠ []) ∧
    replace_rubrics_with_json
        (jarr [canonicalRubric (Json.str "R1") "summary" "universal" false "hello"]) =
      .ok [renormalizedRubric (Json.str "R1")] :=
  ⟨by simp,
   normalization_not_idempotent [(Json.str "R1", "summary", "universal", false, "hello")]
     (by simp)⟩

/-! ## Claim C1: rubrics with no matching feedback item -/

theorem renderOne_rubricId (rubrics : List Json) (idx : Nat) (item : Json) :
    (renderOne rubrics idx item).rubricId =
      if item.isObj then item.pyGet "id" (Json.str "") else Json.str "" := rfl

theorem renderItems_map_rubricId (rubrics items : List Json) :
    (renderItems rubrics items).map RenderedBlock.rubricId =
      items.map (fun it => if it.isObj then it.pyGet "id" (Json.str "") else Json.str "") := by
  unfold renderItems
  rw [List.map_map]
  have hcomp : (RenderedBlock.rubricId ∘ fun p : Nat × Json => renderOne rubrics p.1 p.2) =
      ((fun it : Json => if it.isObj then it.pyGet "id" (Json.str "") else Json.str "") ∘
        Prod.snd) := by
    funext p
    exact renderOne_rubricId rubrics p.1 p.2
  rw [hcomp, ← List.map_map, List.enum_map_snd]

/-- Claim C1 as amended: the reconciliation loop renders exactly one block per
feedback item — the rendered identifiers are the feedback items' `id` values
in order — so a rubric with no matching feedback item (by id or by position)
receives no output at all: no fabricated verdict, but also no missing-feedback
diagnostic. -/
theorem reconcile_renders_feedback_items_only
    (rubrics items : List Json) (content : String) (h : items ≠ []) :
    handle_reconcile rubrics content
        (some (Json.obj (.cons "rubric_feedback" (Json.arr (JsonList.ofList items)) .nil))) =
      .blocks (renderItems rubrics items) ∧
    (renderItems rubrics items).map RenderedBlock.rubricId =
      items.map (fun it => if it.isObj then it.pyGet "id" (Json.str "") else Json.str "") := by
  constructor
  · cases items with
    | nil => exact absurd rfl h
    | cons a t =>
      show ReconcileOutput.blocks
          (renderItems rubrics (JsonList.cons a (JsonList.ofList t)).toList) = _
      rw [show (JsonList.cons a (JsonList.ofList t)).toList = a :: t by
        simp [JsonList.toList]]
  · exact renderItems_map_rubricId rubrics items

/-- The two default rubrics of the app session and a well-formed feedback item
for the first of them only. -/
def c1rubric1 : Json :=
  canonicalRubric (Json.str "R1") "correctness" "must-follow" true
    "Function calculate_discount in src/pricing.py must return 0 for negative totals."

def c1rubric2 : Json :=
  canonicalRubric (Json.str "R2") "code style" "good-to-have" true
    "Email subjects and bodies should look consistent."

def c1feedback : Json :=
  jobj [("id", .str "R1"), ("verdict", .str "pass"),
        ("flags", jobj [("atomic", .bool true), ("specific", .bool true),
                        ("accurate", .bool true), ("categorized", .bool true),
                        ("grounded", .bool true), ("self_contained", .bool true)]),
        ("issues", jarr []), ("suggested_fix", .str "")]

def c1out : ReconcileOutput :=
  handle_reconcile [c1rubric1, c1rubric2] "raw engine text"
    (some (jobj [("rubric_feedback", jarr [c1feedback])]))

/-- Counterexample to claim C1: with two rubrics R1, R2 and an engine reply
carrying feedback only for R1, the reconciliation step renders exactly one
block, for R1 — nothing in the output mentions R2, so R2 is silently given no
output rather than reported as missing feedback. -/
theorem missing_feedback_counterexample :
    c1out.blockList.length = 1 ∧
    c1out.blockList.map RenderedBlock.rubricId = [Json.str "R1"] ∧
    c1out.blockList.all (fun b => !(b.rubricId == Json.str "R2")) = true := by
  refine ⟨rfl, rfl, rfl⟩

/-- Witness for the amended claim C1 at the same concrete input. -/
theorem reconcile_renders_feedback_items_only_witness :
    ([c1feedback] ≠ ([] : List Json)) ∧
    handle_reconcile [c1rubric1, c1rubric2] "raw engine text"
        (some (Json.obj (.cons "rubric_feedback" (Json.arr (JsonList.ofList [c1feedback])) .nil))) =
      .blocks (renderItems [c1rubric1, c1rubric2] [c1feedback]) :=
  ⟨by simp,
   (reconcile_renders_feedback_items_only [c1rubric1, c1rubric2] [c1feedback]
     "raw engine text" (by simp)).1⟩

/-! ## Claim C2: malformed or keyless engine output -/

/-- Counterexample to claim C2: engine output that IS valid JSON but lacks the
`rubric_feedback` key (here the JSON text `[1, 2]`) is surfaced as the parsed
value, not as the `{"raw": ...}` raw-text diagnostic the claim requires. -/
theorem raw_text_diagnostic_counterexample :
    handle_reconcile [] "[1, 2]" (some (Json.arr (.cons (.num 1) (.cons (.num 2) .nil)))) =
      .passthrough (Json.arr (.cons (.num 1) (.cons (.num 2) .nil))) ∧
    ReconcileOutput.passthrough (Json.arr (.cons (.num 1) (.cons (.num 2) .nil))) ≠
      .passthrough (jobj [("raw", Json.str "[1, 2]")]) :=
  ⟨rfl, by decide⟩

/-- Claim C2 as amended: reconciliation never raises — on a JSON parse failure
every engine output string is preserved verbatim inside the `{"raw": ...}`
diagnostic shown to the operator, and on valid JSON that lacks a usable
`rubric_feedback` list the parsed value itself is passed through unchanged
(data preserved, though not as a raw-text diagnostic). -/
theorem reconcile_preserves_engine_output (rubrics : List Json) (content : String) :
    handle_reconcile rubrics content none =
      .passthrough (jobj [("raw", Json.str content)]) ∧
    ∀ p : Json, hasUsableFeedback p = false →
      handle_reconcile rubrics content (some p) = .passthrough p := by
  constructor
  · rfl
  · intro p hp
    show (match (if p.isObj then p.pyGetN "rubric_feedback" else Json.null) with
      | Json.arr JsonList.nil => ReconcileOutput.passthrough p
      | Json.arr items => ReconcileOutput.blocks (renderItems rubrics items.toList)
      | _ => ReconcileOutput.passthrough p) = ReconcileOutput.passthrough p
    unfold hasUsableFeedback at hp
    cases hfv : (if p.isObj then p.pyGetN "rubric_feedback" else Json.null) with
    | arr l =>
      cases l with
      | nil => rfl
      | cons a t => rw [hfv] at hp; exact absurd hp (by simp)
    | null => rfl
    | bool b => rfl
    | num n => rfl
    | str s => rfl
    | obj o => rfl

/-- Witness for the amended claim C2: a non-JSON reply is wrapped verbatim in
the raw diagnostic, and a JSON reply without the feedback key passes through. -/
theorem reconcile_preserves_engine_output_witness :
    handle_reconcile [] "oops not json" none =
      .passthrough (jobj [("raw", Json.str "oops not json")]) ∧
    hasUsableFeedback (Json.arr (.cons (.num 1) .nil)) = false ∧
    handle_reconcile [] "[1]" (some (Json.arr (.cons (.num 1) .nil))) =
      .passthrough (Json.arr (.cons (.num 1) .nil)) :=
  ⟨(reconcile_preserves_engine_output [] "oops not json").1, rfl,
   (reconcile_preserves_engine_output [] "[1]").2 _ rfl⟩
